import Mathlib

set_option maxRecDepth 100000

/-!
Verification of the VanneControl binary wire protocol and device state
machine, shallowly embedded from the Python sources
(`src/iot_simulator.py`, `src/scripts/mqtt_binary_monitor.py`,
`src/binary_device_client.py`).

Bytes are modelled as natural numbers below 256, byte strings as
`List Nat`.  The real-valued environmental quantities (Python floats)
are modelled as rationals; the bounded random deltas drawn by
`random.uniform` / `random.randint` become universally quantified
parameters constrained to the documented intervals.
-/

namespace VanneControl

/-! ## Checksum engine

Embeds `VirtualDevice._calculate_crc16` (src/iot_simulator.py lines
212-222); the byte-identical copies live in
`BinaryProtocolClient._calculate_crc16` and
`BinaryMessageDecoder.calculate_crc16`. -/

/-- One inner-loop round of the CRC: if the low bit is set, shift right by
one and XOR with 0x8005, else just shift right (lines 217-221). -/
def crcRound (crc : Nat) : Nat :=
  if crc &&& 1 = 1 then (crc >>> 1) ^^^ 0x8005 else crc >>> 1

/-- Fold one input byte into the accumulator: XOR it in, then run eight
rounds (lines 215-221). -/
def crcByte (crc b : Nat) : Nat := crcRound^[8] (crc ^^^ b)

/-- Model of `VirtualDevice._calculate_crc16`: accumulator starts at 0xFFFF, each
byte is folded in, and the low 16 bits are returned. -/
def calculate_crc16 (data : List Nat) : Nat :=
  (data.foldl crcByte 0xFFFF) &&& 0xFFFF

/-! Reference CRC16 written from the words of spec section 4.1, to be
compared against the code's `calculate_crc16`. -/

/-- Reference inner round, following spec section 4.1 verbatim: "if the
low bit of the accumulator is 1, right-shift the accumulator by one bit
and XOR with 0x8005; otherwise right-shift by one bit with no XOR". -/
def crcRoundRef (crc : Nat) : Nat :=
  if crc % 2 = 1 then (crc / 2) ^^^ 0x8005 else crc / 2

/-- Reference CRC16 from spec section 4.1: initialize the accumulator to
0xFFFF; for each byte XOR it into the low 8 bits then run the round 8
times; return the low 16 bits after processing all bytes. -/
def crc16Ref (data : List Nat) : Nat :=
  (data.foldl (fun crc b => crcRoundRef^[8] (crc ^^^ b)) 0xFFFF) % 65536

theorem crcRound_eq_ref (crc : Nat) : crcRound crc = crcRoundRef crc := by
  simp [crcRound, crcRoundRef, Nat.and_one_is_mod, Nat.shiftRight_one]

theorem crcByte_eq_ref (crc b : Nat) :
    crcByte crc b = crcRoundRef^[8] (crc ^^^ b) := by
  have h : crcRound = crcRoundRef := funext crcRound_eq_ref
  simp [crcByte, h]

/-- C2: the code's checksum equals the reference CRC16 of spec section 4.1
on every byte sequence, and on the empty input it returns 0xFFFF. -/
theorem calculate_crc16_eq_reference :
    (∀ data : List Nat, calculate_crc16 data = crc16Ref data) ∧
    calculate_crc16 [] = 0xFFFF := by
  constructor
  · intro data
    have hfold : ∀ a : Nat,
        data.foldl crcByte a =
        data.foldl (fun crc b => crcRoundRef^[8] (crc ^^^ b)) a := by
      induction data with
      | nil => intro a; rfl
      | cons x xs ih => intro a; simp [List.foldl, crcByte_eq_ref, ih]
    have hmask : ∀ n : Nat, n &&& 0xFFFF = n % 65536 := by
      intro n
      have := Nat.and_pow_two_sub_one_eq_mod n 16
      norm_num at this
      simpa using this
    simp [calculate_crc16, crc16Ref, hfold, hmask]
  · decide

/-! ## Frame codec

Encoder: `VirtualDevice._create_message` (src/iot_simulator.py lines
204-210).  Decoder: `BinaryMessageDecoder.decode` and its four
kind-specific helpers (src/scripts/mqtt_binary_monitor.py lines 69-207).
Multi-byte integers are read and written little-endian, as the
`struct.pack`/`struct.unpack` format strings with a `<` prefix do. -/

/-- Little-endian encoding of `v` into `n` bytes, as `struct.pack` writes
fixed-width unsigned fields (`<H`, `<Q`, `<I`). -/
def leBytes : Nat → Nat → List Nat
  | 0, _ => []
  | n + 1, v => v % 256 :: leBytes n (v / 256)

/-- Little-endian value of a byte list, as `struct.unpack` reads
fixed-width unsigned fields. -/
def leVal : List Nat → Nat
  | [] => 0
  | b :: bs => b + 256 * leVal bs

/-- Model of `VirtualDevice._create_message`: one kind byte, the 16 raw device-id
bytes, the payload, then the CRC16 of everything so far as two
little-endian bytes (lines 204-210). -/
def create_message (device_id : List Nat) (message_type : Nat)
    (payload : List Nat) : List Nat :=
  let data := message_type :: (device_id ++ payload)
  data ++ leBytes 2 (calculate_crc16 data)

/-- Model of `VirtualDevice.send_piston_state` (lines 234-240): payload is
`struct.pack` of piston number, 1/0 activity flag and a u64 millisecond
timestamp, wrapped by `_create_message` with kind 0x01. -/
def send_piston_state (device_id : List Nat) (piston_number : Nat)
    (is_active : Bool) (timestamp : Nat) : List Nat :=
  create_message device_id 1
    ([piston_number, if is_active then 1 else 0] ++ leBytes 8 timestamp)

/-- Result of `BinaryMessageDecoder.decode`: the error dictionaries of the
Python code become error constructors; the success dictionaries become one
constructor per message kind carrying the structural fields the code
extracts from the bytes before rendering them for display (the dict then
shows the device id truncated to its first 8 hex characters, the
timestamp as a formatted local time of day, and the telemetry value to
two decimals).  `unknownKind` keeps the raw frame, mirroring the `hex`
entry of the Python dictionary; `decodeException` is the except-branch
dictionary of lines 123-128, produced when a parser raises. -/
inductive Decoded where
  | tooShort (size : Nat)
  | crcMismatch (received expected : Nat)
  | payloadTooShort (kind : Nat) (size : Nat)
  | pistonState (device_id : List Nat) (piston state_byte timestamp_ms : Nat)
  | statusUpdate (device_id : List Nat) (status battery signal : Nat)
  | telemetry (device_id : List Nat) (sensor : Nat) (valueBytes : List Nat)
      (timestamp_ms : Nat)
  | errorReport (device_id : List Nat) (code : Nat) (messageBytes : List Nat)
  | unknownKind (kind : Nat) (device_id : List Nat) (raw : List Nat)
  | decodeException (raw : List Nat)
  deriving DecidableEq

/-- Byte-extraction layer of `BinaryMessageDecoder._decode_piston_state`
(lines 130-149): needs 10 payload bytes; piston number, state byte, then
a little-endian u64 timestamp.  The `datetime.fromtimestamp` rendering of
line 139, which raises for timestamps past the representable range, is
modelled separately in `decode_piston_state_checked` below. -/
def decodePistonState (device_id payload : List Nat) : Decoded :=
  if payload.length < 10 then .payloadTooShort 1 payload.length
  else .pistonState device_id (payload.getD 0 0) (payload.getD 1 0)
    (leVal ((payload.drop 2).take 8))

/-- Model of `BinaryMessageDecoder._decode_status_update` (lines 151-166): needs 3
payload bytes; status code, battery, signal. -/
def decodeStatusUpdate (device_id payload : List Nat) : Decoded :=
  if payload.length < 3 then .payloadTooShort 2 payload.length
  else .statusUpdate device_id (payload.getD 0 0) (payload.getD 1 0)
    (payload.getD 2 0)

/-- Byte-extraction layer of `BinaryMessageDecoder._decode_telemetry`
(lines 168-190): needs 13 payload bytes; sensor code, the four raw bytes
of the f32 value (kept as bytes: float semantics is display-only here),
then a u64 timestamp.  The `datetime.fromtimestamp` rendering of line
178, which raises for timestamps past the representable range, is
modelled separately in `decode_telemetry_checked` below. -/
def decodeTelemetry (device_id payload : List Nat) : Decoded :=
  if payload.length < 13 then .payloadTooShort 3 payload.length
  else .telemetry device_id (payload.getD 0 0) ((payload.drop 1).take 4)
    (leVal ((payload.drop 5).take 8))

/-- Model of `BinaryMessageDecoder._decode_error` (lines 192-207): needs at least 4
payload bytes; a little-endian u32 error code then the raw message
bytes. -/
def decodeError (device_id payload : List Nat) : Decoded :=
  if payload.length < 4 then .payloadTooShort 4 payload.length
  else .errorReport device_id (leVal (payload.take 4)) (payload.drop 4)

/-- Byte-extraction layer of `BinaryMessageDecoder.decode` (lines
69-128): length check first, then CRC verification over everything but
the trailing two checksum bytes, then header split (kind byte, 16
device-id bytes, payload `data[17:-2]`), then dispatch on the kind byte;
unrecognized kinds yield the tagged unknown result carrying the raw
bytes.  On the length, checksum, unknown-kind and payload-length paths no
raising operation is reachable, so this version agrees with the program
there; the reachable raising path inside the piston-state and telemetry
parsers is modelled in `decode_checked` below. -/
def decode (data : List Nat) : Decoded :=
  if data.length < 19 then .tooShort data.length
  else
    let received := leVal (data.drop (data.length - 2))
    let expected := calculate_crc16 (data.take (data.length - 2))
    if received ≠ expected then .crcMismatch received expected
    else
      let msg_type := data.getD 0 0
      let device_id := (data.drop 1).take 16
      let payload := (data.drop 17).take (data.length - 19)
      if msg_type = 1 then decodePistonState device_id payload
      else if msg_type = 2 then decodeStatusUpdate device_id payload
      else if msg_type = 3 then decodeTelemetry device_id payload
      else if msg_type = 4 then decodeError device_id payload
      else .unknownKind msg_type device_id data

/-- Millisecond bound of `datetime.fromtimestamp(timestamp_ms / 1000)`:
the conversion raises (OverflowError / year-out-of-range ValueError) for
timestamps at or past the end of year 9999.  The constant is the UTC
boundary 253402300800000; the local timezone moves the true boundary by
less than a day in either direction, and every concrete evaluation below
stays more than a millennium away from it, where every timezone agrees. -/
def datetimeMaxMs : Nat := 253402300800000

/-- Model of `BinaryMessageDecoder._decode_piston_state` (lines 130-149)
including the `datetime.fromtimestamp` call of line 139: a timestamp past
the representable range raises, the exception propagates to `decode`'s
except branch (lines 123-128), and the caller receives the exception
dictionary carrying the raw frame hex instead of the piston fields. -/
def decode_piston_state_checked (device_id payload raw : List Nat) : Decoded :=
  if payload.length < 10 then .payloadTooShort 1 payload.length
  else if leVal ((payload.drop 2).take 8) < datetimeMaxMs then
    .pistonState device_id (payload.getD 0 0) (payload.getD 1 0)
      (leVal ((payload.drop 2).take 8))
  else .decodeException raw

/-- Model of `BinaryMessageDecoder._decode_telemetry` (lines 168-190)
including the `datetime.fromtimestamp` call of line 178, as in
`decode_piston_state_checked`. -/
def decode_telemetry_checked (device_id payload raw : List Nat) : Decoded :=
  if payload.length < 13 then .payloadTooShort 3 payload.length
  else if leVal ((payload.drop 5).take 8) < datetimeMaxMs then
    .telemetry device_id (payload.getD 0 0) ((payload.drop 1).take 4)
      (leVal ((payload.drop 5).take 8))
  else .decodeException raw

/-- Model of `BinaryMessageDecoder.decode` (lines 69-128) with the
reachable raising path made explicit: identical to `decode` except that
the piston-state and telemetry parsers perform the datetime conversion,
whose exception the surrounding try/except of lines 73-128 turns into the
exception dictionary. -/
def decode_checked (data : List Nat) : Decoded :=
  if data.length < 19 then .tooShort data.length
  else
    let received := leVal (data.drop (data.length - 2))
    let expected := calculate_crc16 (data.take (data.length - 2))
    if received ≠ expected then .crcMismatch received expected
    else
      let msg_type := data.getD 0 0
      let device_id := (data.drop 1).take 16
      let payload := (data.drop 17).take (data.length - 19)
      if msg_type = 1 then decode_piston_state_checked device_id payload data
      else if msg_type = 2 then decodeStatusUpdate device_id payload
      else if msg_type = 3 then decode_telemetry_checked device_id payload data
      else if msg_type = 4 then decodeError device_id payload
      else .unknownKind msg_type device_id data

/-! Helper lemmas about the byte-level primitives. -/

theorem leBytes_length (n v : Nat) : (leBytes n v).length = n := by
  induction n generalizing v with
  | zero => rfl
  | succ m ih => simp [leBytes, ih]

theorem leVal_leBytes (n v : Nat) (h : v < 256 ^ n) :
    leVal (leBytes n v) = v := by
  induction n generalizing v with
  | zero => simp [leBytes, leVal]; omega
  | succ m ih =>
    have hdiv : v / 256 < 256 ^ m := by
      rw [Nat.div_lt_iff_lt_mul (by norm_num)]
      calc v < 256 ^ (m + 1) := h
        _ = 256 ^ m * 256 := by ring
    simp [leBytes, leVal, ih (v / 256) hdiv]
    omega

theorem take_exact {l : List Nat} {n : Nat} (h : l.length = n) : l.take n = l :=
  List.take_of_length_le (le_of_eq h)

/-- Core codec fact shared by several claims: decoding any frame built by
`_create_message` passes the length and checksum gates and dispatches the
original device id and payload to the parser selected by the kind byte. -/
theorem decode_create_message (dev : List Nat) (k : Nat) (payload : List Nat)
    (hdev : dev.length = 16) :
    decode (create_message dev k payload) =
      if k = 1 then decodePistonState dev payload
      else if k = 2 then decodeStatusUpdate dev payload
      else if k = 3 then decodeTelemetry dev payload
      else if k = 4 then decodeError dev payload
      else Decoded.unknownKind k dev (create_message dev k payload) := by
  have hle : calculate_crc16 (k :: (dev ++ payload)) ≤ 0xFFFF :=
    Nat.and_le_right
  have hclt : calculate_crc16 (k :: (dev ++ payload)) < 256 ^ 2 :=
    lt_of_le_of_lt hle (by norm_num)
  set c := calculate_crc16 (k :: (dev ++ payload)) with hc
  have hmsg2 : create_message dev k payload
      = (k :: (dev ++ payload)) ++ leBytes 2 c := by
    simp only [create_message, ← hc]
  have hlen : (create_message dev k payload).length = 19 + payload.length := by
    rw [hmsg2]
    simp only [List.length_append, List.length_cons, leBytes_length, hdev]
    omega
  have hA : create_message dev k payload
      = [k] ++ (dev ++ (payload ++ leBytes 2 c)) := by
    rw [hmsg2]; simp
  have hB : create_message dev k payload
      = ([k] ++ dev) ++ (payload ++ leBytes 2 c) := by
    rw [hmsg2]; simp
  have htake : (create_message dev k payload).take
      ((create_message dev k payload).length - 2) = k :: (dev ++ payload) := by
    rw [hlen, hmsg2]
    exact List.take_left'
      (by simp only [List.length_cons, List.length_append, hdev]; omega)
  have hdropCRC : (create_message dev k payload).drop
      ((create_message dev k payload).length - 2) = leBytes 2 c := by
    rw [hlen, hmsg2]
    exact List.drop_left'
      (by simp only [List.length_cons, List.length_append, hdev]; omega)
  have hrecv : leVal ((create_message dev k payload).drop
      ((create_message dev k payload).length - 2)) = c := by
    rw [hdropCRC]; exact leVal_leBytes 2 c hclt
  have hexp : calculate_crc16 ((create_message dev k payload).take
      ((create_message dev k payload).length - 2)) = c := by
    rw [htake]
  have hget : (create_message dev k payload).getD 0 0 = k := by
    rw [hmsg2]; rfl
  have hdevx : ((create_message dev k payload).drop 1).take 16 = dev := by
    rw [hA, List.drop_left' (by simp : ([k] : List Nat).length = 1)]
    exact List.take_left' hdev
  have hpayx : ((create_message dev k payload).drop 17).take
      ((create_message dev k payload).length - 19) = payload := by
    rw [hlen, hB,
      List.drop_left' (by simp [hdev] : ([k] ++ dev).length = 17),
      Nat.add_sub_cancel_left]
    exact List.take_left' rfl
  simp only [decode]
  rw [if_neg (by rw [hlen]; omega)]
  rw [hrecv, hexp, if_neg (not_not_intro rfl)]
  rw [hget, hdevx, hpayx]

/-! ## Well-formed payloads (section-3 schemas)

One constructor per message kind, carrying the fields the senders in
`src/iot_simulator.py` pack (`send_piston_state`, `send_status_update`,
`send_telemetry`, `send_error`).  The f32 telemetry value is carried as
its four raw little-endian bytes. -/

inductive PayloadData where
  | pistonState (piston state_byte timestamp_ms : Nat)
  | statusUpdate (status battery signal : Nat)
  | telemetry (sensor : Nat) (valueBytes : List Nat) (timestamp_ms : Nat)
  | errorReport (code : Nat) (messageBytes : List Nat)

/-- Kind byte of each schema (MessageType, src/iot_simulator.py 19-24). -/
def PayloadData.kind : PayloadData → Nat
  | .pistonState .. => 1
  | .statusUpdate .. => 2
  | .telemetry .. => 3
  | .errorReport .. => 4

/-- Byte encoding of each schema, exactly as the senders pack it:
`<BBQ` for piston state, `<BBB` for status, `<BfQ` for telemetry (value
bytes kept raw), `<I` plus raw text for error. -/
def PayloadData.toBytes : PayloadData → List Nat
  | .pistonState p s ts => [p, s] ++ leBytes 8 ts
  | .statusUpdate st b sg => [st, b, sg]
  | .telemetry sc v ts => sc :: (v ++ leBytes 8 ts)
  | .errorReport c m => leBytes 4 c ++ m

/-- Well-formedness per the section-3 schemas: every fixed-width field is
in range for its width, the f32 value is exactly four bytes. -/
def PayloadData.wellFormed : PayloadData → Prop
  | .pistonState p s ts => p < 256 ∧ s < 256 ∧ ts < 2 ^ 64
  | .statusUpdate st b sg => st < 256 ∧ b < 256 ∧ sg < 256
  | .telemetry sc v ts => sc < 256 ∧ v.length = 4 ∧ ts < 2 ^ 64
  | .errorReport c _ => c < 2 ^ 32

theorem decodePistonState_toBytes (dev : List Nat) (p s ts : Nat)
    (hts : ts < 2 ^ 64) :
    decodePistonState dev ([p, s] ++ leBytes 8 ts)
      = Decoded.pistonState dev p s ts := by
  have h8 : ts < 256 ^ 8 := by
    have : (256 : Nat) ^ 8 = 2 ^ 64 := by norm_num
    omega
  have hlen : ([p, s] ++ leBytes 8 ts).length = 10 := by
    simp [leBytes_length]
  unfold decodePistonState
  rw [if_neg (by omega)]
  have hdrop : (([p, s] ++ leBytes 8 ts).drop 2).take 8 = leBytes 8 ts := by
    have : ([p, s] ++ leBytes 8 ts).drop 2 = leBytes 8 ts := rfl
    rw [this]
    exact take_exact (leBytes_length 8 ts)
  rw [hdrop, leVal_leBytes 8 ts h8]
  rfl

theorem decodeStatusUpdate_toBytes (dev : List Nat) (st b sg : Nat) :
    decodeStatusUpdate dev [st, b, sg] = Decoded.statusUpdate dev st b sg := by
  unfold decodeStatusUpdate
  rw [if_neg (by simp)]
  rfl

theorem decodeTelemetry_toBytes (dev : List Nat) (sc : Nat) (v : List Nat)
    (ts : Nat) (hv : v.length = 4) (hts : ts < 2 ^ 64) :
    decodeTelemetry dev (sc :: (v ++ leBytes 8 ts))
      = Decoded.telemetry dev sc v ts := by
  have h8 : ts < 256 ^ 8 := by
    have : (256 : Nat) ^ 8 = 2 ^ 64 := by norm_num
    omega
  have hlen : (sc :: (v ++ leBytes 8 ts)).length = 13 := by
    simp [leBytes_length, hv]
  unfold decodeTelemetry
  rw [if_neg (by omega)]
  have hval : ((sc :: (v ++ leBytes 8 ts)).drop 1).take 4 = v := by
    have : (sc :: (v ++ leBytes 8 ts)).drop 1 = v ++ leBytes 8 ts := rfl
    rw [this]
    exact List.take_left' hv
  have htsb : ((sc :: (v ++ leBytes 8 ts)).drop 5).take 8 = leBytes 8 ts := by
    have h1 : (sc :: (v ++ leBytes 8 ts)).drop 5 = (v ++ leBytes 8 ts).drop 4 := rfl
    rw [h1, List.drop_left' hv]
    exact take_exact (leBytes_length 8 ts)
  rw [hval, htsb, leVal_leBytes 8 ts h8]
  rfl

theorem decodeError_toBytes (dev : List Nat) (c : Nat) (m : List Nat)
    (hc : c < 2 ^ 32) :
    decodeError dev (leBytes 4 c ++ m) = Decoded.errorReport dev c m := by
  have h4 : c < 256 ^ 4 := by
    have : (256 : Nat) ^ 4 = 2 ^ 32 := by norm_num
    omega
  have hlen : (leBytes 4 c ++ m).length = 4 + m.length := by
    simp [leBytes_length]
  unfold decodeError
  rw [if_neg (by omega)]
  rw [List.take_left' (leBytes_length 4 c), List.drop_left' (leBytes_length 4 c),
    leVal_leBytes 4 c h4]

/-- Device id bytes of `550e8400-e29b-41d4-a716-446655440000`, the UUID of
the first simulated device (`uuid.UUID.bytes` is big-endian). -/
def uuid550e : List Nat :=
  [0x55, 0x0e, 0x84, 0x00, 0xe2, 0x9b, 0x41, 0xd4,
   0xa7, 0x16, 0x44, 0x66, 0x55, 0x44, 0x00, 0x00]

/-- C1: the round-trip law fails on the code at a schema-valid input.
The PistonState payload with piston 3, state 1 and timestamp
300000000000000 ms (3e14, a valid u64, year about 11472) is well-formed
per the section-3 schema; the frame `_create_message` builds from it
passes the length and checksum gates (its byte layer extracts the
original fields), yet the decoder's `datetime.fromtimestamp` raises, so
`decode` returns its except-branch exception dictionary instead of the
fields — even though the module's own docstring says it fixes exactly
these year-out-of-range errors by correctly parsing the protocol. -/
theorem decode_roundtrip_fails_datetime :
    (PayloadData.pistonState 3 1 300000000000000).wellFormed ∧
    19 ≤ (create_message uuid550e 1 ([3, 1] ++ leBytes 8 300000000000000)).length ∧
    leVal ((create_message uuid550e 1 ([3, 1] ++ leBytes 8 300000000000000)).drop
        ((create_message uuid550e 1 ([3, 1] ++ leBytes 8 300000000000000)).length - 2))
      = calculate_crc16
          ((create_message uuid550e 1 ([3, 1] ++ leBytes 8 300000000000000)).take
            ((create_message uuid550e 1 ([3, 1] ++ leBytes 8 300000000000000)).length - 2)) ∧
    decode (create_message uuid550e 1 ([3, 1] ++ leBytes 8 300000000000000))
      = Decoded.pistonState uuid550e 3 1 300000000000000 ∧
    decode_checked (create_message uuid550e 1 ([3, 1] ++ leBytes 8 300000000000000))
      = Decoded.decodeException
          (create_message uuid550e 1 ([3, 1] ++ leBytes 8 300000000000000)) :=
  ⟨⟨by decide, by decide, by decide⟩, by decide, by decide, by decide, by decide⟩

/-! ## Known vector (C4), checksum-gate, too-short and unknown-kind
behaviour of `decode` (C3, C7, C5). -/

/-- The byte string the claim C4 lists as the checksummed region: kind
byte, the 16 UUID bytes, then `03 01` and only seven zero bytes — 26
bytes in total. -/
def c4ClaimedBytes : List Nat :=
  [0x01] ++ uuid550e ++ [0x03, 0x01, 0, 0, 0, 0, 0, 0, 0]

/-- The checksummed region the code actually produces: kind byte, the 16
UUID bytes, then the full 10-byte payload `03 01` + eight zero timestamp
bytes — 27 bytes. -/
def c4ActualBytes : List Nat :=
  [0x01] ++ uuid550e ++ [0x03, 0x01, 0, 0, 0, 0, 0, 0, 0, 0]

/-- C4 counterexample: the encoder's output is not the claimed 26-byte
region followed by its CRC (a 28-byte frame); the actual frame is 29
bytes, because `struct.pack` gives the u64 timestamp eight zero bytes,
one more than the claim lists. -/
theorem send_piston_state_known_vector_counterexample :
    send_piston_state uuid550e 3 true 0
        ≠ c4ClaimedBytes ++ leBytes 2 (calculate_crc16 c4ClaimedBytes) ∧
    c4ClaimedBytes.length = 26 ∧
    (send_piston_state uuid550e 3 true 0).length = 29 :=
  ⟨by decide, by decide, by decide⟩

/-- C4 amended: encoding a PistonState frame for device
550e8400-e29b-41d4-a716-446655440000 with piston 3, active, timestamp 0
produces exactly the 27-byte prefix (kind, big-endian UUID bytes,
little-endian payload with an 8-byte timestamp) followed by the two
little-endian bytes of its CRC16, which is 0xF446. -/
theorem send_piston_state_known_vector :
    c4ActualBytes.length = 27 ∧
    calculate_crc16 c4ActualBytes = 0xF446 ∧
    send_piston_state uuid550e 3 true 0
      = c4ActualBytes ++ leBytes 2 (calculate_crc16 c4ActualBytes) ∧
    send_piston_state uuid550e 3 true 0 = c4ActualBytes ++ [0x46, 0xF4] :=
  ⟨by decide, by decide, by decide, by decide⟩

/-- C3: any frame of length at least 19 whose trailing little-endian u16
differs from the CRC16 of the preceding bytes is rejected as a checksum
mismatch carrying both the received and the expected value; `decode`
returns before reaching any kind-specific parser (the kind dispatch is
syntactically in the else-branch of the checksum test). -/
theorem decode_checksum_mismatch (data : List Nat) (h19 : 19 ≤ data.length)
    (hne : leVal (data.drop (data.length - 2))
        ≠ calculate_crc16 (data.take (data.length - 2))) :
    decode data = Decoded.crcMismatch (leVal (data.drop (data.length - 2)))
      (calculate_crc16 (data.take (data.length - 2))) := by
  simp only [decode]
  rw [if_neg (by omega), if_pos hne]

/-- Witness for C3: nineteen zero bytes carry checksum 0, but the CRC16
of the first seventeen is 3221. -/
theorem decode_checksum_mismatch_witness :
    19 ≤ (List.replicate 19 0 : List Nat).length ∧
    decode (List.replicate 19 0) = Decoded.crcMismatch 0 3221 :=
  ⟨by decide, decode_checksum_mismatch (List.replicate 19 0) (by decide) (by decide)⟩

/-- C5: a frame of length at least 19 with a valid checksum and a kind
byte outside {1,2,3,4} decodes to the tagged unknown-kind result carrying
the raw kind byte, the device id bytes and the raw frame (from which the
payload is the bytes between position 17 and the checksum), and that
result is distinct from every checksum-failure result. -/
theorem decode_unknown_kind (data : List Nat) (h19 : 19 ≤ data.length)
    (hcrc : leVal (data.drop (data.length - 2))
        = calculate_crc16 (data.take (data.length - 2)))
    (hk : data.getD 0 0 ≠ 1 ∧ data.getD 0 0 ≠ 2 ∧
          data.getD 0 0 ≠ 3 ∧ data.getD 0 0 ≠ 4) :
    decode data
      = Decoded.unknownKind (data.getD 0 0) ((data.drop 1).take 16) data ∧
    (∀ r e, decode data ≠ Decoded.crcMismatch r e) := by
  obtain ⟨h1, h2, h3, h4⟩ := hk
  have hd : decode data
      = Decoded.unknownKind (data.getD 0 0) ((data.drop 1).take 16) data := by
    simp only [decode]
    rw [if_neg (by omega), if_neg (not_not_intro hcrc),
      if_neg h1, if_neg h2, if_neg h3, if_neg h4]
  refine ⟨hd, fun r e h => ?_⟩
  rw [hd] at h
  exact Decoded.noConfusion h

/-- Witness for C5: a checksummed frame with kind byte 0xAA decodes to
the tagged unknown result, not to a checksum failure. -/
theorem decode_unknown_kind_witness :
    decode (create_message uuid550e 0xAA [])
      = Decoded.unknownKind 0xAA uuid550e (create_message uuid550e 0xAA []) ∧
    (∀ r e, decode (create_message uuid550e 0xAA []) ≠ Decoded.crcMismatch r e) :=
  decode_unknown_kind (create_message uuid550e 0xAA []) (by decide) (by decide)
    ⟨by decide, by decide, by decide, by decide⟩

/-- C7: every byte sequence shorter than 19 bytes is rejected as too
short; the length test is the first thing `decode` does, before any byte
of the buffer is inspected, so no out-of-range position is read. -/
theorem decode_too_short (data : List Nat) (h : data.length < 19) :
    decode data = Decoded.tooShort data.length := by
  simp only [decode]
  rw [if_pos h]

/-- Witness for C7: a five-byte buffer decodes to the too-short error. -/
theorem decode_too_short_witness :
    (List.replicate 5 0 : List Nat).length < 19 ∧
    decode (List.replicate 5 0) = Decoded.tooShort 5 :=
  ⟨by decide, decode_too_short (List.replicate 5 0) (by decide)⟩

/-! ## Device state machine: piston command application -/

/-- Model of `VirtualDevice._execute_command` acting on the piston array
(src/iot_simulator.py lines 158-180): a piston number inside
`1..len(pistons)` sets that piston's state (`Piston.activate` /
`Piston.deactivate`) and sends one confirmation frame through
`send_piston_state`; any other number only logs a warning.  The fresh
timestamp `send_piston_state` reads from the clock is passed in as
`timestamp`. -/
def execute_command (device_id : List Nat) (pistons : List Bool)
    (piston_num : Nat) (activate : Bool) (timestamp : Nat) :
    List Bool × Option (List Nat) :=
  if 1 ≤ piston_num ∧ piston_num ≤ pistons.length then
    (pistons.set (piston_num - 1) activate,
     some (send_piston_state device_id piston_num activate timestamp))
  else (pistons, none)

/-- C6: a piston command with number 0 or above the piston count leaves
every piston unchanged and emits nothing; a number in `1..count` sets
exactly that piston to the requested state, leaves every other piston
unchanged, and emits one PistonState confirmation frame that decodes back
to the same piston number and state. -/
theorem execute_command_spec (dev : List Nat) (pistons : List Bool)
    (n : Nat) (act : Bool) (ts : Nat)
    (hdev : dev.length = 16) (hn : n < 256) (hts : ts < 2 ^ 64) :
    (¬ (1 ≤ n ∧ n ≤ pistons.length) →
      execute_command dev pistons n act ts = (pistons, none)) ∧
    ((1 ≤ n ∧ n ≤ pistons.length) →
      (execute_command dev pistons n act ts).1[n - 1]? = some act ∧
      (∀ i, i ≠ n - 1 →
        (execute_command dev pistons n act ts).1[i]? = pistons[i]?) ∧
      (execute_command dev pistons n act ts).2
        = some (send_piston_state dev n act ts) ∧
      decode (send_piston_state dev n act ts)
        = Decoded.pistonState dev n (if act then 1 else 0) ts) := by
  constructor
  · intro h
    simp only [execute_command, if_neg h]
  · intro h
    have hax : execute_command dev pistons n act ts
        = (pistons.set (n - 1) act,
           some (send_piston_state dev n act ts)) := by
      simp only [execute_command, if_pos h]
    rw [hax]
    refine ⟨?_, ?_, rfl, ?_⟩
    · exact List.getElem?_set_self (by omega)
    · intro i hi
      exact List.getElem?_set_ne (fun hh => hi hh.symm)
    · unfold send_piston_state
      rw [decode_create_message dev 1 _ hdev, if_pos rfl]
      exact decodePistonState_toBytes dev n (if act then 1 else 0) ts hts

/-- Witness for C6 at a concrete device: eight pistons, command to
activate piston 3. -/
theorem execute_command_spec_witness :
    (¬ (1 ≤ 3 ∧ 3 ≤ (List.replicate 8 false).length) →
      execute_command uuid550e (List.replicate 8 false) 3 true 0
        = (List.replicate 8 false, none)) ∧
    ((1 ≤ 3 ∧ 3 ≤ (List.replicate 8 false).length) →
      (execute_command uuid550e (List.replicate 8 false) 3 true 0).1[3 - 1]?
        = some true ∧
      (∀ i, i ≠ 3 - 1 →
        (execute_command uuid550e (List.replicate 8 false) 3 true 0).1[i]?
          = (List.replicate 8 false)[i]?) ∧
      (execute_command uuid550e (List.replicate 8 false) 3 true 0).2
        = some (send_piston_state uuid550e 3 true 0) ∧
      decode (send_piston_state uuid550e 3 true 0)
        = Decoded.pistonState uuid550e 3 (if true then 1 else 0) 0) :=
  execute_command_spec uuid550e (List.replicate 8 false) 3 true 0
    (by decide) (by decide) (by decide)

/-! ## Environmental drift -/

/-- The `VirtualDevice` fields touched by `simulate_environmental_changes`
and `send_status_update` (src/iot_simulator.py lines 63-69, 242-251,
277-294).  Python real values are modelled as rationals;
`signal_strength` starts from `random.randint` and stays an integer;
`status_code` is the `DeviceStatus` enum value. -/
structure EnvState where
  temperature : ℚ
  humidity : ℚ
  battery_level : ℚ
  signal_strength : ℤ
  status_code : Nat
  deriving DecidableEq

/-- The four random deltas one call to `simulate_environmental_changes`
draws: `random.uniform(-0.5, 0.5)` for temperature,
`random.uniform(-2.0, 2.0)` for humidity, `random.uniform(0.1, 0.3)` for
battery drain, `random.randint(-5, 5)` for signal. -/
structure Drift where
  dTemp : ℚ
  dHum : ℚ
  dBat : ℚ
  dSig : ℤ
  deriving DecidableEq

/-- The ranges the `random` calls guarantee for the drawn deltas. -/
def Drift.valid (d : Drift) : Prop :=
  -(1/2) ≤ d.dTemp ∧ d.dTemp ≤ 1/2 ∧
  -2 ≤ d.dHum ∧ d.dHum ≤ 2 ∧
  1/10 ≤ d.dBat ∧ d.dBat ≤ 3/10 ∧
  -5 ≤ d.dSig ∧ d.dSig ≤ 5

/-- Model of `VirtualDevice.simulate_environmental_changes` (lines 277-294):
perturb then clamp temperature to [15, 35] and humidity to [20, 80];
drain battery only while it is positive, flooring the result at 0; drift
signal strength and clamp it to [0, 100]. -/
def simulate_environmental_changes (s : EnvState) (d : Drift) : EnvState :=
  { s with
    temperature := max 15 (min 35 (s.temperature + d.dTemp)),
    humidity := max 20 (min 80 (s.humidity + d.dHum)),
    battery_level :=
      if 0 < s.battery_level then max 0 (s.battery_level - d.dBat)
      else s.battery_level,
    signal_strength := max 0 (min 100 (s.signal_strength + d.dSig)) }

/-- The sequence of states a device passes through under repeated
environmental ticks. -/
def tickTrace (s : EnvState) : List Drift → List EnvState
  | [] => []
  | d :: ds =>
    simulate_environmental_changes s d
      :: tickTrace (simulate_environmental_changes s d) ds

theorem tick_step (s : EnvState) (d : Drift) (hd : d.valid)
    (hb : 0 ≤ s.battery_level) :
    15 ≤ (simulate_environmental_changes s d).temperature ∧
    (simulate_environmental_changes s d).temperature ≤ 35 ∧
    20 ≤ (simulate_environmental_changes s d).humidity ∧
    (simulate_environmental_changes s d).humidity ≤ 80 ∧
    0 ≤ (simulate_environmental_changes s d).signal_strength ∧
    (simulate_environmental_changes s d).signal_strength ≤ 100 ∧
    0 ≤ (simulate_environmental_changes s d).battery_level ∧
    (simulate_environmental_changes s d).battery_level ≤ s.battery_level := by
  obtain ⟨-, -, -, -, hbat1, -, -, -⟩ := hd
  unfold simulate_environmental_changes
  dsimp only
  refine ⟨le_max_left _ _, max_le (by norm_num) (min_le_left _ _),
    le_max_left _ _, max_le (by norm_num) (min_le_left _ _),
    le_max_left _ _, max_le (by norm_num) (min_le_left _ _), ?_, ?_⟩
  · split_ifs with h0
    · exact le_max_left _ _
    · exact hb
  · split_ifs with h0
    · exact max_le hb (by linarith)
    · exact le_refl _

/-- C8: for every device state with a non-negative battery and every
sequence of environmental ticks whose random deltas are in the documented
ranges, after each call the temperature lies in [15, 35], the humidity in
[20, 80], the signal strength in [0, 100], the battery is non-negative,
and along the whole trace the battery level never increases. -/
theorem tick_sequence_invariants (s : EnvState) (ds : List Drift)
    (hds : ∀ d ∈ ds, d.valid) (hb : 0 ≤ s.battery_level) :
    (∀ s' ∈ tickTrace s ds,
      15 ≤ s'.temperature ∧ s'.temperature ≤ 35 ∧
      20 ≤ s'.humidity ∧ s'.humidity ≤ 80 ∧
      0 ≤ s'.signal_strength ∧ s'.signal_strength ≤ 100 ∧
      0 ≤ s'.battery_level) ∧
    List.Chain (fun a b => b.battery_level ≤ a.battery_level) s
      (tickTrace s ds) := by
  induction ds generalizing s with
  | nil => exact ⟨by simp [tickTrace], by simp [tickTrace]⟩
  | cons d ds ih =>
    have hdv : d.valid := hds d (List.mem_cons_self d ds)
    obtain ⟨ht1, ht2, hh1, hh2, hs1, hs2, hb1, hb2⟩ := tick_step s d hdv hb
    obtain ⟨ihall, ihchain⟩ :=
      ih (simulate_environmental_changes s d)
        (fun d' hd' => hds d' (List.mem_cons_of_mem d hd')) hb1
    constructor
    · intro s' hs'
      rcases List.mem_cons.mp hs' with rfl | hmem
      · exact ⟨ht1, ht2, hh1, hh2, hs1, hs2, hb1⟩
      · exact ihall s' hmem
    · exact List.Chain.cons hb2 ihchain

/-- Witness for C8: one concrete tick from the initial readings of a
fresh device (temperature 25, humidity 50, battery 100, signal 85). -/
theorem tick_sequence_invariants_witness :
    (∀ d ∈ ([⟨1/4, 1, 1/5, 3⟩] : List Drift), d.valid) ∧
    0 ≤ (⟨25, 50, 100, 85, 1⟩ : EnvState).battery_level ∧
    ((∀ s' ∈ tickTrace ⟨25, 50, 100, 85, 1⟩ [⟨1/4, 1, 1/5, 3⟩],
      15 ≤ s'.temperature ∧ s'.temperature ≤ 35 ∧
      20 ≤ s'.humidity ∧ s'.humidity ≤ 80 ∧
      0 ≤ s'.signal_strength ∧ s'.signal_strength ≤ 100 ∧
      0 ≤ s'.battery_level) ∧
    List.Chain (fun a b => b.battery_level ≤ a.battery_level)
      ⟨25, 50, 100, 85, 1⟩ (tickTrace ⟨25, 50, 100, 85, 1⟩ [⟨1/4, 1, 1/5, 3⟩])) := by
  have hds : ∀ d ∈ ([⟨1/4, 1, 1/5, 3⟩] : List Drift), d.valid := by
    intro d hd
    rw [List.mem_singleton] at hd
    subst hd
    exact ⟨by norm_num, by norm_num, by norm_num, by norm_num,
      by norm_num, by norm_num, by norm_num, by norm_num⟩
  exact ⟨hds, by decide,
    tick_sequence_invariants ⟨25, 50, 100, 85, 1⟩ [⟨1/4, 1, 1/5, 3⟩] hds (by decide)⟩

/-! ## Inbound message counters -/

/-- The two inbound statistics counters of `VirtualDevice`
(src/iot_simulator.py lines 82-84). -/
structure Counters where
  messages_received : Nat
  errors : Nat
  deriving DecidableEq

/-- Outcome of `VirtualDevice._parse_command` (lines 124-156): `exn` when
the Python body raises (the only raising statement reachable for a
checksum-valid frame is `struct.unpack` of a PistonState payload shorter
than two bytes), `ok none` when it returns None (too short, checksum
mismatch, or a kind other than 0x01), `ok (some (piston, activate))` for
a parsed piston command. -/
inductive ParseOutcome where
  | exn
  | ok (cmd : Option (Nat × Bool))
  deriving DecidableEq

/-- Model of `VirtualDevice._parse_command` with its Python exception behaviour
made explicit. -/
def parse_command (data : List Nat) : ParseOutcome :=
  if data.length < 19 then .ok none
  else
    let payload := (data.drop 17).take (data.length - 19)
    let received := leVal (data.drop (data.length - 2))
    let calculated := calculate_crc16 (data.take (data.length - 2))
    if received ≠ calculated then .ok none
    else if data.getD 0 0 = 1 then
      if payload.length < 2 then .exn
      else .ok (some (payload.getD 0 0, payload.getD 1 0 = 1))
    else .ok none

/-- Model of `VirtualDevice._on_message` (lines 109-122): `messages_received` is
incremented first, before any parsing; the parse and command execution
run inside try/except, and `errors` is incremented only when an exception
escapes. -/
def on_message (c : Counters) (data : List Nat) : Counters :=
  let c' : Counters := { c with messages_received := c.messages_received + 1 }
  match parse_command data with
  | .exn => { c' with errors := c'.errors + 1 }
  | .ok _ => c'

/-- C9 counterexample: the empty inbound frame fails to decode
(`TooShort`), yet `_on_message` still increments `messages_received`
(and leaves `errors` untouched). -/
theorem on_message_counts_counterexample :
    decode [] = Decoded.tooShort 0 ∧
    parse_command [] = ParseOutcome.ok none ∧
    (on_message ⟨0, 0⟩ []).messages_received = 1 ∧
    (on_message ⟨0, 0⟩ []).errors = 0 :=
  ⟨rfl, rfl, rfl, rfl⟩

/-- C9 amended: `messages_received` is incremented on every inbound
frame, whether or not it decodes; `errors` is incremented exactly when
`_parse_command` raises, which happens exactly for frames of length at
least 19 with a valid checksum, kind byte 0x01, and total length below 21
(payload shorter than the two bytes `struct.unpack('<BB', ...)` needs);
too-short frames and checksum mismatches return None and increment
neither counter beyond the unconditional receive count. -/
theorem on_message_counts (c : Counters) (data : List Nat) :
    (on_message c data).messages_received = c.messages_received + 1 ∧
    (on_message c data).errors
      = (match parse_command data with
         | .exn => c.errors + 1
         | .ok _ => c.errors) ∧
    (parse_command data = .exn ↔
      (19 ≤ data.length ∧
       leVal (data.drop (data.length - 2))
         = calculate_crc16 (data.take (data.length - 2)) ∧
       data.getD 0 0 = 1 ∧
       data.length < 21)) := by
  have hpl : 19 ≤ data.length →
      ((data.drop 17).take (data.length - 19)).length = data.length - 19 := by
    intro h
    simp only [List.length_take, List.length_drop]
    omega
  refine ⟨?_, ?_, ?_⟩
  · cases h : parse_command data <;> simp [on_message, h]
  · cases h : parse_command data <;> simp [on_message, h]
  · constructor
    · intro h
      simp only [parse_command] at h
      by_cases hL : data.length < 19
      · rw [if_pos hL] at h
        exact ParseOutcome.noConfusion h
      rw [if_neg hL] at h
      by_cases hcrc : leVal (data.drop (data.length - 2))
          ≠ calculate_crc16 (data.take (data.length - 2))
      · rw [if_pos hcrc] at h
        exact ParseOutcome.noConfusion h
      rw [if_neg hcrc] at h
      by_cases hk : data.getD 0 0 = 1
      · rw [if_pos hk] at h
        by_cases hp : ((data.drop 17).take (data.length - 19)).length < 2
        · refine ⟨by omega, not_not.mp hcrc, hk, ?_⟩
          have := hpl (by omega)
          omega
        · rw [if_neg hp] at h
          exact ParseOutcome.noConfusion h
      · rw [if_neg hk] at h
        exact ParseOutcome.noConfusion h
    · rintro ⟨h19, hcrc, hk, h21⟩
      simp only [parse_command]
      rw [if_neg (by omega), if_neg (not_not_intro hcrc), if_pos hk,
        if_pos (by rw [hpl h19]; omega)]

/-! ## Status updates and the non-integer battery packing failure -/

/-- Failure modes of `struct.pack('B', v)`. -/
inductive PackError where
  | nonInteger
  | outOfRange
  deriving DecidableEq

/-- Model of `struct.pack('B', v)`: CPython raises `required argument is not an
integer` for any non-integral argument, and rejects integers outside
0..255.  Numeric values are rationals here, so non-integrality is a
denominator other than 1. -/
def packB (v : ℚ) : Except PackError Nat :=
  if v.den = 1 then
    if 0 ≤ v.num ∧ v.num < 256 then .ok v.num.toNat
    else .error .outOfRange
  else .error .nonInteger

/-- Model of `VirtualDevice.send_status_update` (src/iot_simulator.py lines
242-251): battery and signal fall back to the sentinel 255 only when
above 100, then `struct.pack('<BBB', status_code, battery, signal)` packs
the three fields left to right and the three bytes are framed with kind
0x02. -/
def send_status_update (device_id : List Nat) (s : EnvState) :
    Except PackError (List Nat) := do
  let battery : ℚ := if s.battery_level ≤ 100 then s.battery_level else 255
  let signal : ℤ := if s.signal_strength ≤ 100 then s.signal_strength else 255
  let st ← packB (s.status_code : ℚ)
  let b ← packB battery
  let sg ← packB (signal : ℚ)
  pure (create_message device_id 2 [st, b, sg])

/-- C10: from a state whose battery level is an integer in (0, 100] (as
after initialization to 100), one environmental tick whose battery drain
lies in the documented range [0.1, 0.3] and does not hit the 0 floor
leaves a non-integral battery level, and `send_status_update` then fails
with the non-integer pack error instead of emitting a StatusUpdate
frame. -/
theorem send_status_update_fails_after_tick (dev : List Nat) (s : EnvState)
    (d : Drift)
    (hint : s.battery_level.den = 1)
    (hst : s.status_code ≤ 2)
    (hb0 : 0 < s.battery_level) (hb100 : s.battery_level ≤ 100)
    (hd1 : 1/10 ≤ d.dBat) (hd2 : d.dBat ≤ 3/10)
    (hnoclamp : 0 < s.battery_level - d.dBat) :
    (simulate_environmental_changes s d).battery_level.den ≠ 1 ∧
    send_status_update dev (simulate_environmental_changes s d)
      = .error PackError.nonInteger := by
  have hbat : (simulate_environmental_changes s d).battery_level
      = s.battery_level - d.dBat := by
    simp only [simulate_environmental_changes]
    rw [if_pos hb0]
    exact max_eq_right (le_of_lt hnoclamp)
  have hden : (s.battery_level - d.dBat).den ≠ 1 := by
    intro h
    have hbq : (s.battery_level.num : ℚ) = s.battery_level :=
      (Rat.den_eq_one_iff s.battery_level).mp hint
    have hdq : ((s.battery_level - d.dBat).num : ℚ)
        = s.battery_level - d.dBat :=
      (Rat.den_eq_one_iff (s.battery_level - d.dBat)).mp h
    set n : ℤ := s.battery_level.num - (s.battery_level - d.dBat).num with hn
    have hdBat : (n : ℚ) = d.dBat := by
      rw [hn]
      push_cast
      rw [hbq, hdq]
      ring
    rcases le_or_lt n 0 with hle | hgt
    · have hq : (n : ℚ) ≤ 0 := by exact_mod_cast hle
      rw [hdBat] at hq
      linarith
    · have h1 : (1 : ℤ) ≤ n := hgt
      have hq : (1 : ℚ) ≤ (n : ℚ) := by exact_mod_cast h1
      rw [hdBat] at hq
      linarith
  have hb100' : (simulate_environmental_changes s d).battery_level ≤ 100 := by
    rw [hbat]
    linarith
  have hstatus : (simulate_environmental_changes s d).status_code
      = s.status_code := rfl
  have hstat : packB (((simulate_environmental_changes s d).status_code : Nat) : ℚ)
      = .ok s.status_code := by
    rw [hstatus]
    have h1 : ((s.status_code : ℚ)).den = 1 := rfl
    have h2 : ((s.status_code : ℚ)).num = (s.status_code : ℤ) := rfl
    simp only [packB, h1, h2]
    rw [if_pos trivial,
      if_pos ⟨Int.natCast_nonneg s.status_code,
        by exact_mod_cast (by omega : s.status_code < 256)⟩]
    rfl
  have hbfail : packB ((simulate_environmental_changes s d).battery_level)
      = .error PackError.nonInteger := by
    simp only [packB]
    rw [if_neg (by rw [hbat]; exact hden)]
  refine ⟨by rw [hbat]; exact hden, ?_⟩
  simp only [send_status_update]
  rw [if_pos hb100', hstat, hbfail]
  rfl

/-- Witness for C10: the fresh first device (battery 100, status online)
after one tick draining one fifth of a percent. -/
theorem send_status_update_fails_after_tick_witness :
    ((⟨25, 50, 100, 85, 1⟩ : EnvState).battery_level.den = 1 ∧
     0 < (⟨25, 50, 100, 85, 1⟩ : EnvState).battery_level ∧
     (1 : ℚ)/10 ≤ (⟨0, 0, 1/5, 0⟩ : Drift).dBat) ∧
    (simulate_environmental_changes ⟨25, 50, 100, 85, 1⟩
        ⟨0, 0, 1/5, 0⟩).battery_level.den ≠ 1 ∧
    send_status_update uuid550e
        (simulate_environmental_changes ⟨25, 50, 100, 85, 1⟩ ⟨0, 0, 1/5, 0⟩)
      = .error PackError.nonInteger :=
  ⟨⟨by decide, by norm_num, by norm_num⟩,
   send_status_update_fails_after_tick uuid550e ⟨25, 50, 100, 85, 1⟩
     ⟨0, 0, 1/5, 0⟩ (by decide) (by decide) (by norm_num) (by norm_num)
     (by norm_num) (by norm_num) (by norm_num)⟩

end VanneControl
